import Mathlib

/-
Verification of the indicator-computation and scoring engine of the stock
scanner (scanner.py, utils/indicators.py).

Modelling conventions:
* Price/volume data are exact rationals.  The code computes with IEEE-754
  doubles (numpy / pandas); we model the value set as `PFloat`:
  a rational, +infinity, -infinity, or NaN, with the IEEE rules for
  arithmetic and comparisons (any comparison with NaN is false, x/0 is a
  signed infinity or NaN, inf - inf = NaN, ...).  Rounding of doubles is
  abstracted away (exact rational arithmetic); no claim below depends on
  rounding.  numpy has a signed zero which rationals do not; no claim
  depends on the sign of zero.
* Undefined warm-up values of an indicator column (pandas NaN) are
  represented by `PFloat.nan`.
* The scanner obtains its indicator columns from the external `ta`
  library, which is not part of this repository; those columns are
  modelled from the spec (section 4.1) as noted on each definition.  The
  SuperTrend recursion, the support/resistance columns, the BB width, the
  ROC and the whole scoring pass are in-repo code (scanner.py) and are
  translated from that source; `trVal`/`atrRolling` and the DX family are
  translated from the in-repo utils/indicators.py.
-/

namespace Adul

/-- IEEE-754-style value: finite rational, signed infinities, or NaN. -/
inductive PFloat where
  | fin (q : ℚ)
  | pinf
  | ninf
  | nan
deriving DecidableEq

/-- IEEE addition. -/
def padd : PFloat → PFloat → PFloat
  | .nan, _ => .nan
  | _, .nan => .nan
  | .pinf, .ninf => .nan
  | .ninf, .pinf => .nan
  | .pinf, _ => .pinf
  | _, .pinf => .pinf
  | .ninf, _ => .ninf
  | _, .ninf => .ninf
  | .fin a, .fin b => .fin (a + b)

/-- IEEE negation. -/
def pneg : PFloat → PFloat
  | .fin a => .fin (-a)
  | .pinf => .ninf
  | .ninf => .pinf
  | .nan => .nan

/-- IEEE subtraction. -/
def psub (a b : PFloat) : PFloat := padd a (pneg b)

/-- IEEE multiplication. -/
def pmul : PFloat → PFloat → PFloat
  | .nan, _ => .nan
  | _, .nan => .nan
  | .fin a, .fin b => .fin (a * b)
  | .fin a, .pinf => if 0 < a then .pinf else if a < 0 then .ninf else .nan
  | .fin a, .ninf => if 0 < a then .ninf else if a < 0 then .pinf else .nan
  | .pinf, .fin b => if 0 < b then .pinf else if b < 0 then .ninf else .nan
  | .ninf, .fin b => if 0 < b then .ninf else if b < 0 then .pinf else .nan
  | .pinf, .pinf => .pinf
  | .pinf, .ninf => .ninf
  | .ninf, .pinf => .ninf
  | .ninf, .ninf => .pinf

/-- IEEE division (rationals carry no signed zero, so finite/infinite is
the single zero and the sign of a division by zero ignores the sign of the zero, matching numpy on non-negative-zero inputs). -/
def pdiv : PFloat → PFloat → PFloat
  | .nan, _ => .nan
  | _, .nan => .nan
  | .fin a, .fin b =>
      if b = 0 then (if 0 < a then .pinf else if a < 0 then .ninf else .nan)
      else .fin (a / b)
  | .fin _, .pinf => .fin 0
  | .fin _, .ninf => .fin 0
  | .pinf, .fin b => if b < 0 then .ninf else .pinf
  | .ninf, .fin b => if b < 0 then .pinf else .ninf
  | .pinf, _ => .nan
  | .ninf, _ => .nan

/-- IEEE absolute value. -/
def pabs : PFloat → PFloat
  | .fin a => .fin |a|
  | .pinf => .pinf
  | .ninf => .pinf
  | .nan => .nan

/-- IEEE strict less-than: false whenever an operand is NaN. -/
def flt : PFloat → PFloat → Bool
  | .fin a, .fin b => decide (a < b)
  | .fin _, .pinf => true
  | .ninf, .fin _ => true
  | .ninf, .pinf => true
  | _, _ => false

/-- IEEE less-or-equal: false whenever an operand is NaN. -/
def fle : PFloat → PFloat → Bool
  | .fin a, .fin b => decide (a ≤ b)
  | .fin _, .pinf => true
  | .fin _, _ => false
  | .ninf, .nan => false
  | .ninf, _ => true
  | .pinf, .pinf => true
  | .pinf, _ => false
  | .nan, _ => false

/-- IEEE strict greater-than. -/
def fgt (a b : PFloat) : Bool := flt b a

/-- IEEE greater-or-equal. -/
def fge (a b : PFloat) : Bool := fle b a

/-- One OHLCV bar.  The engine input contract (spec section 6) requires
non-null open/high/low/close/volume, so the fields are plain rationals. -/
structure Bar where
  open_ : ℚ
  high : ℚ
  low : ℚ
  close : ℚ
  volume : ℚ
deriving DecidableEq

/-- Bar at index `i` of the series (indices are always used in range). -/
def bAt (df : List Bar) (i : ℕ) : Bar := df.getD i ⟨0, 0, 0, 0, 0⟩

def hiv (df : List Bar) (i : ℕ) : ℚ := (bAt df i).high

def lov (df : List Bar) (i : ℕ) : ℚ := (bAt df i).low

def clv (df : List Bar) (i : ℕ) : ℚ := (bAt df i).close

def vov (df : List Bar) (i : ℕ) : ℚ := (bAt df i).volume

/-- Rolling-window sum of `f` over the `n` indices ending at `i`
(pandas `rolling(n).sum()` evaluated where the window is full). -/
def rsum (n : ℕ) (f : ℕ → ℚ) (i : ℕ) : ℚ :=
  ((List.range n).map (fun k => f (i - k))).sum

/-- pandas `rolling(n).mean()`: NaN while the window is not yet full,
otherwise the arithmetic mean over the window. -/
def rmeanInd (n : ℕ) (f : ℕ → ℚ) (i : ℕ) : PFloat :=
  if i + 1 < n then .nan else .fin (rsum n f i / n)

/-- Rolling-window maximum over the `n` indices ending at `i`. -/
def rmaxQ (n : ℕ) (f : ℕ → ℚ) (i : ℕ) : ℚ :=
  ((List.range n).map (fun k => f (i - k))).foldl max (f i)

/-- Rolling-window minimum over the `n` indices ending at `i`. -/
def rminQ (n : ℕ) (f : ℕ → ℚ) (i : ℕ) : ℚ :=
  ((List.range n).map (fun k => f (i - k))).foldl min (f i)

/-- True Range, from utils/indicators.py `atr`:
`tr = concat(high-low, |high-close.shift(1)|, |low-close.shift(1)|).max(axis=1)`.
At index 0 the shifted close is NaN and the pandas row-max skips NaN, so
the first value is `high - low`. -/
def trVal (df : List Bar) : ℕ → ℚ
  | 0 => hiv df 0 - lov df 0
  | i + 1 =>
      max (hiv df (i + 1) - lov df (i + 1))
        (max |hiv df (i + 1) - clv df i| |lov df (i + 1) - clv df i|)

/-- ATR, from utils/indicators.py `atr`: `tr.rolling(n).mean()`.  The
ATR column of the scanner (window 14) and the SuperTrend ATR
(window 10) come from the external `ta` library; the spec (section 4.1)
gives "ATR = rolling mean of TR over window", which is this same
function, so those columns are modelled by it as well. -/
def atrRolling (df : List Bar) (n i : ℕ) : PFloat := rmeanInd n (trVal df) i

/-- Positive directional movement, from utils/indicators.py `dx`:
`plus_dm = high.diff()` kept `where (plus_dm > minus_dm) & (plus_dm > 0)`
else 0.  At index 0 both diffs are NaN, both conditions are false, so the
value is 0. -/
def plusDMv (df : List Bar) : ℕ → ℚ
  | 0 => 0
  | i + 1 =>
      let up := hiv df (i + 1) - hiv df i
      let dn := lov df i - lov df (i + 1)
      if up > dn ∧ 0 < up then up else 0

/-- Negative directional movement, symmetric to `plusDMv`. -/
def minusDMv (df : List Bar) : ℕ → ℚ
  | 0 => 0
  | i + 1 =>
      let up := hiv df (i + 1) - hiv df i
      let dn := lov df i - lov df (i + 1)
      if dn > up ∧ 0 < dn then dn else 0

/-- Plus-DI, from utils/indicators.py `dx`:
`100 * (plus_dm.rolling(n).sum() / atr)`; NaN while the window is not
full, and a division that can produce infinities or NaN when ATR is 0. -/
def plusDI (df : List Bar) (n i : ℕ) : PFloat :=
  if i + 1 < n then .nan
  else pdiv (.fin (100 * rsum n (plusDMv df) i)) (atrRolling df n i)

/-- Minus-DI, symmetric to `plusDI`. -/
def minusDI (df : List Bar) (n i : ℕ) : PFloat :=
  if i + 1 < n then .nan
  else pdiv (.fin (100 * rsum n (minusDMv df) i)) (atrRolling df n i)

/-- Collapse of `.replace([inf, -inf], 0).fillna(0)`: a finite value is
kept, every infinity and NaN becomes 0. -/
def toZeroQ : PFloat → ℚ
  | .fin q => q
  | _ => 0

/-- DX, from utils/indicators.py `dx`:
`(100 * (plus_di - minus_di).abs() / (plus_di + minus_di))
   .replace([inf, -inf], 0).fillna(0)`. -/
def dxVal (df : List Bar) (n i : ℕ) : ℚ :=
  toZeroQ (pdiv (pmul (.fin 100) (pabs (psub (plusDI df n i) (minusDI df n i))))
    (padd (plusDI df n i) (minusDI df n i)))

/-- ADX, from utils/indicators.py `dx`: `dx.rolling(n).mean()` (the
`fillna(0)` has made `dx` total, so ADX is defined from index `n-1` on).
The ADX column of the scanner comes from the external `ta` library; the spec
(section 4.1) prescribes exactly this construction ("ADX = rolling mean
of DX", DX 0 when its denominator is 0), so that column is modelled by
this function. -/
def adxInd (df : List Bar) (n i : ℕ) : PFloat := rmeanInd n (dxVal df n) i

/-- EMA recursion, modelled from the spec (section 4.1): smoothing factor
`2/(window+1)`, seeded from the first value.  (The EMA columns of the scanner
come from the external `ta` library, which is not in this repository.) -/
def emaRec (w : ℕ) (f : ℕ → ℚ) : ℕ → ℚ
  | 0 => f 0
  | i + 1 => (2 / ((w : ℚ) + 1)) * f (i + 1) + (1 - 2 / ((w : ℚ) + 1)) * emaRec w f i

/-- EMA column: undefined (NaN) for the first `w - 1` bars (spec
section 3 invariant), the seeded recursion afterwards. -/
def emaInd (w : ℕ) (f : ℕ → ℚ) (i : ℕ) : PFloat :=
  if i + 1 < w then .nan else .fin (emaRec w f i)

/-- Modelled from the spec: MACD line = EMA(12) - EMA(26) of close
(section 4.1); the scanner takes it from the external `ta` library. -/
def macdQ (df : List Bar) (i : ℕ) : ℚ := emaRec 12 (clv df) i - emaRec 26 (clv df) i

/-- MACD column with its warm-up mask (26 bars of lookback). -/
def macdInd (df : List Bar) (i : ℕ) : PFloat :=
  if i + 1 < 26 then .nan else .fin (macdQ df i)

/-- Modelled from the spec: MACD signal = EMA(9) of the MACD line, the
recursion seeded at the first defined MACD value (index 25), undefined
until 9 MACD values exist. -/
def macdSigInd (df : List Bar) (i : ℕ) : PFloat :=
  if i + 1 < 34 then .nan else .fin (emaRec 9 (fun j => macdQ df (j + 25)) (i - 25))

/-- Gain sequence for RSI: `gainSeq j` is the upward close-to-close move
from bar `j` to bar `j+1`. -/
def gainSeq (df : List Bar) (j : ℕ) : ℚ := max (clv df (j + 1) - clv df j) 0

/-- Loss sequence for RSI: downward close-to-close move, as a positive
number. -/
def lossSeq (df : List Bar) (j : ℕ) : ℚ := max (clv df j - clv df (j + 1)) 0

/-- Wilder smoothing (alpha = 1/n) seeded from the first value. -/
def wilderRec (n : ℕ) (f : ℕ → ℚ) : ℕ → ℚ
  | 0 => f 0
  | i + 1 => (1 / (n : ℚ)) * f (i + 1) + (1 - 1 / (n : ℚ)) * wilderRec n f i

/-- Modelled from the spec: RSI(14) (section 4.1 lists it without a
formula; the canonical Wilder construction is used: smoothed average
gain / loss, RSI = 100 - 100/(1+RS)).  The scanner takes RSI from the
external `ta` library.  A flat history gives 0/0, hence NaN. -/
def rsiInd (df : List Bar) (i : ℕ) : PFloat :=
  if i < 14 then .nan
  else
    psub (.fin 100)
      (pdiv (.fin 100)
        (padd (.fin 1)
          (pdiv (.fin (wilderRec 14 (gainSeq df) (i - 1)))
            (.fin (wilderRec 14 (lossSeq df) (i - 1))))))

/-- Modelled from the spec: Stochastic %K(14) =
100 * (close - lowest low) / (highest high - lowest low); NaN during
warm-up, and a 0/0 (NaN) on a flat window. -/
def stochKInd (df : List Bar) (i : ℕ) : PFloat :=
  if i + 1 < 14 then .nan
  else
    pdiv (.fin (100 * (clv df i - rminQ 14 (lov df) i)))
      (.fin (rmaxQ 14 (hiv df) i - rminQ 14 (lov df) i))

/-- Modelled from the spec: %D = 3-bar simple moving average of %K. -/
def stochDInd (df : List Bar) (i : ℕ) : PFloat :=
  if i + 1 < 16 then .nan
  else pdiv (padd (padd (stochKInd df i) (stochKInd df (i - 1))) (stochKInd df (i - 2))) (.fin 3)

/-- Modelled from the spec: Williams %R(14) =
-100 * (highest high - close) / (highest high - lowest low). -/
def wrInd (df : List Bar) (i : ℕ) : PFloat :=
  if i + 1 < 14 then .nan
  else
    pdiv (.fin ((-100) * (rmaxQ 14 (hiv df) i - clv df i)))
      (.fin (rmaxQ 14 (hiv df) i - rminQ 14 (lov df) i))

/-- Typical price (high + low + close) / 3. -/
def tpv (df : List Bar) (i : ℕ) : ℚ := (hiv df i + lov df i + clv df i) / 3

/-- Modelled from the spec: CCI(20) =
(TP - SMA20(TP)) / (0.015 * mean deviation). -/
def cciInd (df : List Bar) (i : ℕ) : PFloat :=
  if i + 1 < 20 then .nan
  else
    pdiv (.fin (tpv df i - rsum 20 (tpv df) i / 20))
      (.fin ((3 / 200) * (rsum 20 (fun j => |tpv df j - rsum 20 (tpv df) i / 20|) i / 20)))

/-- Modelled from the spec: OBV = cumulative sum of volume signed by the
direction of the close-to-close change (section 4.1), first value the
volume of the first bar. -/
def obvSeq (df : List Bar) : ℕ → ℚ
  | 0 => vov df 0
  | i + 1 =>
      obvSeq df i +
        (if clv df i < clv df (i + 1) then vov df (i + 1)
         else if clv df (i + 1) < clv df i then -vov df (i + 1)
         else 0)

/-- Positive money flow for MFI: typical price * volume on bars whose
typical price rose. -/
def posMF (df : List Bar) : ℕ → ℚ
  | 0 => 0
  | i + 1 => if tpv df i < tpv df (i + 1) then tpv df (i + 1) * vov df (i + 1) else 0

/-- Negative money flow for MFI. -/
def negMF (df : List Bar) : ℕ → ℚ
  | 0 => 0
  | i + 1 => if tpv df (i + 1) < tpv df i then tpv df (i + 1) * vov df (i + 1) else 0

/-- Modelled from the spec: MFI(14), the standard 0-100 money-flow
oscillator: 100 - 100/(1 + positive flow / negative flow). -/
def mfiInd (df : List Bar) (i : ℕ) : PFloat :=
  if i < 14 then .nan
  else
    psub (.fin 100)
      (pdiv (.fin 100)
        (padd (.fin 1)
          (pdiv (.fin (rsum 14 (posMF df) i)) (.fin (rsum 14 (negMF df) i)))))

/-- Population standard deviation of close over the 20-bar window.
`Rat.sqrt` is an approximation of the irrational square root; no claim
below depends on the numeric value of a Bollinger band. -/
def bbStdQ (df : List Bar) (i : ℕ) : ℚ :=
  Rat.sqrt (rsum 20 (fun j => (clv df j - rsum 20 (clv df) i / 20) ^ 2) i / 20)

/-- Modelled from the spec: Bollinger middle band = SMA20 of close. -/
def bbMid (df : List Bar) (i : ℕ) : PFloat := rmeanInd 20 (clv df) i

/-- Modelled from the spec: Bollinger upper band = mid + 2 * stddev. -/
def bbHigh (df : List Bar) (i : ℕ) : PFloat :=
  if i + 1 < 20 then .nan else .fin (rsum 20 (clv df) i / 20 + 2 * bbStdQ df i)

/-- Modelled from the spec: Bollinger lower band = mid - 2 * stddev. -/
def bbLow (df : List Bar) (i : ℕ) : PFloat :=
  if i + 1 < 20 then .nan else .fin (rsum 20 (clv df) i / 20 - 2 * bbStdQ df i)

/-- BB width, from scanner.py line 118 (in-repo):
`((BB_High - BB_Low) / BB_Mid) * 100`. -/
def bbWidthInd (df : List Bar) (i : ℕ) : PFloat :=
  pmul (pdiv (psub (bbHigh df i) (bbLow df i)) (bbMid df i)) (.fin 100)

/-- Rolling resistance, from scanner.py `_calculate_support_resistance`:
`High.rolling(20).max()`. -/
def resInd (df : List Bar) (i : ℕ) : PFloat :=
  if i + 1 < 20 then .nan else .fin (rmaxQ 20 (hiv df) i)

/-- Rolling support, from scanner.py `_calculate_support_resistance`:
`Low.rolling(20).min()`. -/
def supInd (df : List Bar) (i : ℕ) : PFloat :=
  if i + 1 < 20 then .nan else .fin (rminQ 20 (lov df) i)

/-- Mid price (high + low) / 2 used by SuperTrend. -/
def hl2v (df : List Bar) (i : ℕ) : ℚ := (hiv df i + lov df i) / 2

/-- Raw (un-ratcheted) SuperTrend upper band hl2 + 3 * ATR(10), from
scanner.py `_calculate_supertrend`. -/
def stRawU (df : List Bar) (i : ℕ) : PFloat :=
  padd (.fin (hl2v df i)) (pmul (.fin 3) (atrRolling df 10 i))

/-- Raw (un-ratcheted) SuperTrend lower band hl2 - 3 * ATR(10). -/
def stRawL (df : List Bar) (i : ℕ) : PFloat :=
  psub (.fin (hl2v df i)) (pmul (.fin 3) (atrRolling df 10 i))

/-- SuperTrend state machine, from scanner.py `_calculate_supertrend`:
the result at index `i` is (state, upperband[i], lowerband[i]) where the
bands are the entries of the (mutated-in-place) band arrays after the
loop pass at `i`.  The loop at `i` compares close[i] against the
previous (possibly clamped) band entries; in the persist branch the
lower band ratchets up while bullish and the upper band ratchets down
while bearish.  supertrend[0] = True and the index-0 bands are the raw
bands (the loop starts at 1). -/
def stState (df : List Bar) : ℕ → Bool × PFloat × PFloat
  | 0 => (true, stRawU df 0, stRawL df 0)
  | i + 1 =>
      let p := stState df i
      if fgt (.fin (clv df (i + 1))) p.2.1 then
        (true, stRawU df (i + 1), stRawL df (i + 1))
      else if flt (.fin (clv df (i + 1))) p.2.2 then
        (false, stRawU df (i + 1), stRawL df (i + 1))
      else
        let lb := if p.1 && flt (stRawL df (i + 1)) p.2.2 then p.2.2 else stRawL df (i + 1)
        let ub := if !p.1 && fgt (stRawU df (i + 1)) p.2.1 then p.2.1 else stRawU df (i + 1)
        (p.1, ub, lb)

/-- One row of the indicator frame: the columns `_perform_analysis`
reads at the latest and previous bar.  (Columns the analysis never
reads - EMA_200, the SMAs, MACD_Hist, ROC, Keltner, VWAP and the
SuperTrend band columns - are omitted from the record; the band columns
are reasoned about through `stState` directly.) -/
structure Row where
  Close : PFloat
  Volume : PFloat
  EMA_9 : PFloat
  EMA_20 : PFloat
  EMA_50 : PFloat
  ADX : PFloat
  ADX_POS : PFloat
  ADX_NEG : PFloat
  MACD : PFloat
  MACD_Signal : PFloat
  SuperTrend : Bool
  RSI : PFloat
  STOCH_K : PFloat
  STOCH_D : PFloat
  CCI : PFloat
  WILLIAMS_R : PFloat
  Volume_SMA : PFloat
  OBV : PFloat
  OBV_EMA : PFloat
  MFI : PFloat
  BB_High : PFloat
  BB_Low : PFloat
  BB_Width : PFloat
  ATR : PFloat
  Resistance : PFloat
  Support : PFloat
deriving DecidableEq

/-- Indicator-frame row at index `i`, assembling the columns of
`_calculate_all_indicators` for the bar list `df`. -/
def rowAt (df : List Bar) (i : ℕ) : Row where
  Close := .fin (clv df i)
  Volume := .fin (vov df i)
  EMA_9 := emaInd 9 (clv df) i
  EMA_20 := emaInd 20 (clv df) i
  EMA_50 := emaInd 50 (clv df) i
  ADX := adxInd df 14 i
  ADX_POS := plusDI df 14 i
  ADX_NEG := minusDI df 14 i
  MACD := macdInd df i
  MACD_Signal := macdSigInd df i
  SuperTrend := (stState df i).1
  RSI := rsiInd df i
  STOCH_K := stochKInd df i
  STOCH_D := stochDInd df i
  CCI := cciInd df i
  WILLIAMS_R := wrInd df i
  Volume_SMA := rmeanInd 20 (vov df) i
  OBV := .fin (obvSeq df i)
  OBV_EMA := emaInd 20 (obvSeq df) i
  MFI := mfiInd df i
  BB_High := bbHigh df i
  BB_Low := bbLow df i
  BB_Width := bbWidthInd df i
  ATR := atrRolling df 14 i
  Resistance := resInd df i
  Support := supInd df i

/-- Human-readable signal annotations appended by the scoring rules, in
source order; constructors carry the interpolated indicator value where
the source formats one into the string. -/
inductive Annot where
  | emaBullish
  | emaBearish
  | adxUp (v : PFloat)
  | adxDown (v : PFloat)
  | adxWeak (v : PFloat)
  | stBull
  | stBear
  | macdBullCross
  | macdBearCross
  | rsiOversold (v : PFloat)
  | rsiOverbought (v : PFloat)
  | rsiNeutral (v : PFloat)
  | stochUp
  | stochDown
  | cciOversold
  | cciOverbought
  | wrOversold
  | wrOverbought
  | volHigh
  | volLow
  | obvUp
  | obvDown
  | mfiOversold
  | mfiOverbought
  | bbOversold
  | bbOverbought
  | bbSqueeze
  | atrHigh (v : PFloat)
  | nearSupport
  | nearResistance
deriving DecidableEq

/-- Trend rule 1 (scanner.py 207-212): the chained comparison
`Close > EMA_9 > EMA_20 > EMA_50` gives +3, the exact reverse -3. -/
def trendRuleEMA (latest : Row) : Int × List Annot :=
  if fgt latest.Close latest.EMA_9 && fgt latest.EMA_9 latest.EMA_20 &&
      fgt latest.EMA_20 latest.EMA_50 then
    (3, [.emaBullish])
  else if flt latest.Close latest.EMA_9 && flt latest.EMA_9 latest.EMA_20 &&
      flt latest.EMA_20 latest.EMA_50 then
    (-3, [.emaBearish])
  else (0, [])

/-- Trend rule 2 (scanner.py 216-224): ADX > 25 scores +2 or -2 by the
DI comparison (the inner else is unconditional); ADX not above 25 only
appends the weak-trend annotation. -/
def trendRuleADX (latest : Row) : Int × List Annot :=
  if fgt latest.ADX (.fin 25) then
    if fgt latest.ADX_POS latest.ADX_NEG then (2, [.adxUp latest.ADX])
    else (-2, [.adxDown latest.ADX])
  else (0, [.adxWeak latest.ADX])

/-- Trend rule 3 (scanner.py 227-234): SuperTrend state, +1 / -1. -/
def trendRuleST (latest : Row) : Int × List Annot :=
  if latest.SuperTrend then (1, [.stBull]) else (-1, [.stBear])

/-- Trend rule 4 (scanner.py 237-242): fresh MACD crossover, +2 / -2. -/
def trendRuleMACD (prev latest : Row) : Int × List Annot :=
  if flt prev.MACD prev.MACD_Signal && fgt latest.MACD latest.MACD_Signal then
    (2, [.macdBullCross])
  else if fgt prev.MACD prev.MACD_Signal && flt latest.MACD latest.MACD_Signal then
    (-2, [.macdBearCross])
  else (0, [])

/-- Trend category scorer: score and annotation list accumulated in
source order. -/
def trendEval (prev latest : Row) : Int × List Annot :=
  let r1 := trendRuleEMA latest
  let r2 := trendRuleADX latest
  let r3 := trendRuleST latest
  let r4 := trendRuleMACD prev latest
  (r1.1 + r2.1 + r3.1 + r4.1, r1.2 ++ r2.2 ++ r3.2 ++ r4.2)

/-- Momentum rule 1 (scanner.py 250-257): RSI < 30 gives +2, RSI > 70
gives -2, `40 <= RSI <= 60` only annotates. -/
def momRuleRSI (latest : Row) : Int × List Annot :=
  if flt latest.RSI (.fin 30) then (2, [.rsiOversold latest.RSI])
  else if fgt latest.RSI (.fin 70) then (-2, [.rsiOverbought latest.RSI])
  else if fle (.fin 40) latest.RSI && fle latest.RSI (.fin 60) then
    (0, [.rsiNeutral latest.RSI])
  else (0, [])

/-- Momentum rule 2 (scanner.py 261-266): Stochastic %K oversold turning
up +2, overbought turning down -2. -/
def momRuleStoch (latest : Row) : Int × List Annot :=
  if flt latest.STOCH_K (.fin 20) && fgt latest.STOCH_K latest.STOCH_D then
    (2, [.stochUp])
  else if fgt latest.STOCH_K (.fin 80) && flt latest.STOCH_K latest.STOCH_D then
    (-2, [.stochDown])
  else (0, [])

/-- Momentum rule 3 (scanner.py 270-275): CCI beyond +-100, +1 / -1. -/
def momRuleCCI (latest : Row) : Int × List Annot :=
  if flt latest.CCI (.fin (-100)) then (1, [.cciOversold])
  else if fgt latest.CCI (.fin 100) then (-1, [.cciOverbought])
  else (0, [])

/-- Momentum rule 4 (scanner.py 278-283): Williams %R beyond -80 / -20,
+1 / -1. -/
def momRuleWR (latest : Row) : Int × List Annot :=
  if flt latest.WILLIAMS_R (.fin (-80)) then (1, [.wrOversold])
  else if fgt latest.WILLIAMS_R (.fin (-20)) then (-1, [.wrOverbought])
  else (0, [])

/-- Momentum category scorer. -/
def momEval (latest : Row) : Int × List Annot :=
  let r1 := momRuleRSI latest
  let r2 := momRuleStoch latest
  let r3 := momRuleCCI latest
  let r4 := momRuleWR latest
  (r1.1 + r2.1 + r3.1 + r4.1, r1.2 ++ r2.2 ++ r3.2 ++ r4.2)

/-- Volume rule 1 (scanner.py 290-295): volume above 1.5x its SMA +2,
below 0.5x -1. -/
def volRuleSMA (latest : Row) : Int × List Annot :=
  if fgt latest.Volume (pmul latest.Volume_SMA (.fin (3 / 2))) then (2, [.volHigh])
  else if flt latest.Volume (pmul latest.Volume_SMA (.fin (1 / 2))) then (-1, [.volLow])
  else (0, [])

/-- Volume rule 2 (scanner.py 298-305): OBV above its EMA +1, otherwise
(unconditional else) -1. -/
def volRuleOBV (latest : Row) : Int × List Annot :=
  if fgt latest.OBV latest.OBV_EMA then (1, [.obvUp]) else (-1, [.obvDown])

/-- Volume rule 3 (scanner.py 309-314): MFI beyond 20 / 80, +1 / -1. -/
def volRuleMFI (latest : Row) : Int × List Annot :=
  if flt latest.MFI (.fin 20) then (1, [.mfiOversold])
  else if fgt latest.MFI (.fin 80) then (-1, [.mfiOverbought])
  else (0, [])

/-- Volume category scorer. -/
def volEval (latest : Row) : Int × List Annot :=
  let r1 := volRuleSMA latest
  let r2 := volRuleOBV latest
  let r3 := volRuleMFI latest
  (r1.1 + r2.1 + r3.1, r1.2 ++ r2.2 ++ r3.2)

/-- Volatility rule 1 (scanner.py 321-326): close beyond the Bollinger
bands, +2 / -2. -/
def volaRuleBB (latest : Row) : Int × List Annot :=
  if flt latest.Close latest.BB_Low then (2, [.bbOversold])
  else if fgt latest.Close latest.BB_High then (-2, [.bbOverbought])
  else (0, [])

/-- Volatility annotation (scanner.py 329-330): BB width < 5,
annotation only. -/
def volaRuleBBW (latest : Row) : Int × List Annot :=
  if flt latest.BB_Width (.fin 5) then (0, [.bbSqueeze]) else (0, [])

/-- Volatility annotation (scanner.py 333-335): ATR above 3% of price,
annotation only. -/
def volaRuleATR (latest : Row) : Int × List Annot :=
  let atrPct := pmul (pdiv latest.ATR latest.Close) (.fin 100)
  if fgt atrPct (.fin 3) then (0, [.atrHigh atrPct]) else (0, [])

/-- Volatility rule 2 (scanner.py 345-347): within 2% of support, +1. -/
def volaRuleSup (latest : Row) : Int × List Annot :=
  if flt (pmul (pdiv (psub latest.Close latest.Support) latest.Close) (.fin 100))
      (.fin 2) then
    (1, [.nearSupport])
  else (0, [])

/-- Volatility rule 3 (scanner.py 348-350): within 2% of resistance,
-1 (an independent `if`, so it can fire together with the support
rule). -/
def volaRuleRes (latest : Row) : Int × List Annot :=
  if flt (pmul (pdiv (psub latest.Resistance latest.Close) latest.Close) (.fin 100))
      (.fin 2) then
    (-1, [.nearResistance])
  else (0, [])

/-- Volatility category scorer. -/
def volaEval (latest : Row) : Int × List Annot :=
  let r1 := volaRuleBB latest
  let r2 := volaRuleBBW latest
  let r3 := volaRuleATR latest
  let r4 := volaRuleSup latest
  let r5 := volaRuleRes latest
  (r1.1 + r2.1 + r3.1 + r4.1 + r5.1, r1.2 ++ r2.2 ++ r3.2 ++ r4.2 ++ r5.2)

/-- Trading-signal mapping from the composite score (scanner.py
361-370), an if/elif chain checked high to low. -/
def signalOf (total : Int) : String :=
  if total ≥ 10 then "STRONG BUY"
  else if total ≥ 5 then "BUY"
  else if total ≥ -4 then "HOLD"
  else if total ≥ -9 then "SELL"
  else "STRONG SELL"

/-- The Python substring test `BUY in signal` from scanner.py line 375. -/
def containsBUY (s : String) : Bool :=
  (List.range (s.toList.length + 1)).any fun k =>
    "BUY".toList.isPrefixOf (s.toList.drop k)

/-- Trend-strength label (scanner.py 396-403). -/
def trendLabel (trend : Int) : String :=
  if trend ≥ 4 then "Strong Uptrend"
  else if trend ≥ 1 then "Weak Uptrend"
  else if trend ≥ -3 then "Sideways"
  else "Downtrend"

/-- Momentum label (scanner.py 405-410). -/
def momLabel (mom : Int) : String :=
  if mom ≥ 3 then "Bullish" else if mom ≤ -3 then "Bearish" else "Neutral"

/-- Volume label (scanner.py 412-417). -/
def volLabel (vol : Int) : String :=
  if vol ≥ 2 then "Strong" else if vol ≤ -1 then "Weak" else "Normal"

/-- The analysis record assembled by `_perform_analysis` (the `ticker`
string is pass-through and omitted).  The price-level fields are strings
in the source ("Rp ..." or "N/A"); they are modelled as `Option`s whose
`none` is the "N/A" branch and whose payload is the numeric content of
the formatted string. -/
structure Analysis where
  price : PFloat
  volume : PFloat
  change : PFloat
  adx : PFloat
  supertrend_signal : String
  rsi : PFloat
  stochastic : PFloat
  cci : PFloat
  obv_trend : String
  mfi : PFloat
  resistance : PFloat
  support : PFloat
  total_score : Int
  trend_score : Int
  momentum_score : Int
  volume_score : Int
  volatility_score : Int
  trading_signal : String
  entry_point : Option (PFloat × PFloat)
  target_price : Option PFloat
  stop_loss : Option PFloat
  risk_reward : Option PFloat
  trend_strength : String
  momentum_status : String
  volume_status : String
  key_signals : List Annot
deriving DecidableEq

/-- Embedding of `_perform_analysis` (scanner.py 190-423) on the previous and latest
indicator rows. -/
def performAnalysis (prev latest : Row) : Analysis :=
  let t := trendEval prev latest
  let m := momEval latest
  let v := volEval latest
  let w := volaEval latest
  let total := t.1 + m.1 + v.1 + w.1
  let signal := signalOf total
  let target := padd latest.Close (pmul (.fin 2) latest.ATR)
  let stopLoss := psub latest.Support latest.ATR
  { price := latest.Close
    volume := latest.Volume
    change := pmul (pdiv (psub latest.Close prev.Close) prev.Close) (.fin 100)
    adx := latest.ADX
    supertrend_signal := if latest.SuperTrend then "Bullish" else "Bearish"
    rsi := latest.RSI
    stochastic := latest.STOCH_K
    cci := latest.CCI
    obv_trend := if fgt latest.OBV latest.OBV_EMA then "Up" else "Down"
    mfi := latest.MFI
    resistance := latest.Resistance
    support := latest.Support
    total_score := total
    trend_score := t.1
    momentum_score := m.1
    volume_score := v.1
    volatility_score := w.1
    trading_signal := signal
    entry_point := if containsBUY signal then some (latest.Support, latest.Close) else none
    target_price := if containsBUY signal then some target else none
    stop_loss := if containsBUY signal then some stopLoss else none
    risk_reward :=
      if containsBUY signal then
        some (pdiv (psub target latest.Close) (psub latest.Close stopLoss))
      else none
    trend_strength := trendLabel t.1
    momentum_status := momLabel m.1
    volume_status := volLabel v.1
    key_signals := t.2 ++ m.2 ++ v.2 ++ w.2 }

/-- Embedding of `comprehensive_analysis` (scanner.py 22-44) on an optional bar
series: absent input or fewer than 60 bars give an absent result;
otherwise the indicators are computed and `_perform_analysis` runs on
`iloc[-1]` and `iloc[-2]`.  (The try/except of the source returns None on
an exception; the embedding is total, and the data fetch and ticker
suffixing are out of the engine.) -/
def comprehensive_analysis (dfq : Option (List Bar)) : Option Analysis :=
  match dfq with
  | none => none
  | some df =>
      if df.length < 60 then none
      else some (performAnalysis (rowAt df (df.length - 2)) (rowAt df (df.length - 1)))

/-- The signal threshold table of the spec (section 4.3), written from
its words for the refinement comparison with the in-source
`signalOf`: fixed thresholds, inclusive, checked high to low. -/
def specSignalTable (composite : Int) : String :=
  if 10 ≤ composite then "STRONG BUY"
  else if 5 ≤ composite then "BUY"
  else if -4 ≤ composite then "HOLD"
  else if -9 ≤ composite then "SELL"
  else "STRONG SELL"

/-- A flat constant bar used by concrete instantiations. -/
def cbar : Bar := ⟨100, 100, 100, 100, 1000⟩

/-- Concrete series for the SuperTrend claim: ten flat bars (so that
ATR(10) first becomes defined, with value 0, at index 9) followed by a
breakout bar whose close 101 exceeds the previous upper band 100 while
its long range drops the raw lower band far below 100. -/
def stDf : List Bar := List.replicate 10 cbar ++ [⟨101, 102, 0, 101, 1000⟩]

/-- Concrete row for the BUY-levels example: close 100, support 95,
ATR 2, and momentum values scoring +6 (RSI 25, %K 10 above %D 5,
CCI -150, Williams -90), SuperTrend bullish (+1) and OBV above its EMA
(+1), total 8, signal BUY. -/
def buyRow : Row where
  Close := .fin 100
  Volume := .fin 100
  EMA_9 := .nan
  EMA_20 := .nan
  EMA_50 := .nan
  ADX := .nan
  ADX_POS := .nan
  ADX_NEG := .nan
  MACD := .nan
  MACD_Signal := .nan
  SuperTrend := true
  RSI := .fin 25
  STOCH_K := .fin 10
  STOCH_D := .fin 5
  CCI := .fin (-150)
  WILLIAMS_R := .fin (-90)
  Volume_SMA := .fin 100
  OBV := .fin 10
  OBV_EMA := .fin 5
  MFI := .fin 50
  BB_High := .nan
  BB_Low := .nan
  BB_Width := .nan
  ATR := .fin 2
  Resistance := .fin 200
  Support := .fin 95

/-- Concrete row for the degenerate risk:reward division: as `buyRow`
but support = close = 100 and ATR = 0, so the signal is BUY (score 9,
the near-support rule now also fires) while close - stopLoss = 0. -/
def degRow : Row := { buyRow with Support := .fin 100, ATR := .fin 0 }

/-- Row whose float-valued indicator columns are all NaN (a fresh
warm-up frame); `SuperTrend` is a bool column and stays `true`. -/
def nanRow : Row where
  Close := .nan
  Volume := .nan
  EMA_9 := .nan
  EMA_20 := .nan
  EMA_50 := .nan
  ADX := .nan
  ADX_POS := .nan
  ADX_NEG := .nan
  MACD := .nan
  MACD_Signal := .nan
  SuperTrend := true
  RSI := .nan
  STOCH_K := .nan
  STOCH_D := .nan
  CCI := .nan
  WILLIAMS_R := .nan
  Volume_SMA := .nan
  OBV := .nan
  OBV_EMA := .nan
  MFI := .nan
  BB_High := .nan
  BB_Low := .nan
  BB_Width := .nan
  ATR := .nan
  Resistance := .nan
  Support := .nan

/-- Latest row of a perfectly bullish setup: stacked EMAs, strong ADX
with +DI above -DI, bullish SuperTrend, MACD above its signal. -/
def bullRow : Row :=
  { nanRow with
      Close := .fin 110
      EMA_9 := .fin 105
      EMA_20 := .fin 100
      EMA_50 := .fin 95
      ADX := .fin 30
      ADX_POS := .fin 20
      ADX_NEG := .fin 10
      MACD := .fin 1
      MACD_Signal := .fin 0
      SuperTrend := true }

/-- Previous row of the bullish setup: MACD still below its signal, so
the latest bar is a fresh bullish crossover. -/
def bullPrevRow : Row := { nanRow with MACD := .fin (-1), MACD_Signal := .fin 0 }

/-- Concrete series with zero directional movement but positive true
range: constant bars with high 100, low 90, close 95, giving
+DI = -DI = 0 while ATR = 10. -/
def flatDmDf : List Bar := List.replicate 14 ⟨95, 100, 90, 95, 1000⟩

/-- Fifteen flat bars, for instantiating the ATR window formula. -/
def atrDf : List Bar := List.replicate 15 cbar

theorem flt_nan_left (x : PFloat) : flt .nan x = false := by cases x <;> rfl

theorem flt_nan_right (x : PFloat) : flt x .nan = false := by cases x <;> rfl

theorem fgt_nan_left (x : PFloat) : fgt .nan x = false := flt_nan_right x

theorem fgt_nan_right (x : PFloat) : fgt x .nan = false := flt_nan_left x

theorem fle_nan_left (x : PFloat) : fle .nan x = false := by cases x <;> rfl

theorem fle_nan_right (x : PFloat) : fle x .nan = false := by cases x <;> rfl

theorem flt_irrefl (x : PFloat) : flt x x = false := by
  cases x <;> simp [flt]

theorem pmul_nan_left (x : PFloat) : pmul .nan x = .nan := by cases x <;> rfl

theorem pmul_nan_right (x : PFloat) : pmul x .nan = .nan := by cases x <;> rfl

theorem pdiv_nan_left (x : PFloat) : pdiv .nan x = .nan := by cases x <;> rfl

theorem pdiv_nan_right (x : PFloat) : pdiv x .nan = .nan := by cases x <;> rfl

theorem psub_nan_left (x : PFloat) : psub .nan x = .nan := by cases x <;> rfl

theorem psub_nan_right (x : PFloat) : psub x .nan = .nan := by cases x <;> rfl

theorem padd_eq_fin {u v : PFloat} {q : ℚ} (h : padd u v = .fin q) :
    ∃ a b, u = .fin a ∧ v = .fin b ∧ a + b = q := by
  cases u <;> cases v <;> simp_all [padd]

/-- The if/elif signal chain of the source agrees with the threshold
table of the spec at every composite score. -/
theorem signalOf_eq_specTable (n : Int) : signalOf n = specSignalTable n := rfl

/-- Claim C1: for every series of at least 60 bars (of non-null OHLCV,
which `Bar` carries by construction), `comprehensive_analysis` returns a
present result whose composite score is the sum of the four category
sub-scores and whose trading signal is exactly the inclusive
high-to-low threshold table applied to the composite. -/
theorem C1_comprehensive_total_and_signal (df : List Bar) (h : 60 ≤ df.length) :
    ∃ a, comprehensive_analysis (some df) = some a ∧
      a.total_score = a.trend_score + a.momentum_score + a.volume_score + a.volatility_score ∧
      a.trading_signal = specSignalTable a.total_score := by
  refine ⟨performAnalysis (rowAt df (df.length - 2)) (rowAt df (df.length - 1)), ?_, rfl, rfl⟩
  simp only [comprehensive_analysis, if_neg (by omega : ¬ df.length < 60)]

/-- Witness for C1 at a concrete 60-bar series. -/
theorem C1_witness :
    ∃ a, comprehensive_analysis (some (List.replicate 60 cbar)) = some a ∧
      a.total_score = a.trend_score + a.momentum_score + a.volume_score + a.volatility_score ∧
      a.trading_signal = specSignalTable a.total_score :=
  C1_comprehensive_total_and_signal (List.replicate 60 cbar) (by simp)

/-- Claim C2: an absent series, or any series of fewer than 60 bars
(the empty series included), yields an absent result; the source
catches every exception and returns None, so the call never throws
(totality of the embedding). -/
theorem C2_short_series_absent (dfq : Option (List Bar))
    (h : ∀ df, dfq = some df → df.length < 60) :
    comprehensive_analysis dfq = none := by
  cases dfq with
  | none => rfl
  | some df => simp only [comprehensive_analysis, if_pos (h df rfl)]

/-- Witness for C2 at the absent input and at the empty series. -/
theorem C2_witness :
    comprehensive_analysis none = none ∧ comprehensive_analysis (some []) = none :=
  ⟨C2_short_series_absent none (by intro df h; cases h),
   C2_short_series_absent (some []) (by intro df h; cases h; decide)⟩

/-- Claim C10: the key-signal list is the concatenation of the trend,
momentum, volume and volatility annotations, in that fixed order, each
category listing the annotations of its rules in evaluation order. -/
theorem C10_key_signal_order (prev latest : Row) :
    (performAnalysis prev latest).key_signals =
      ((trendRuleEMA latest).2 ++ (trendRuleADX latest).2 ++ (trendRuleST latest).2 ++
        (trendRuleMACD prev latest).2) ++
      ((momRuleRSI latest).2 ++ (momRuleStoch latest).2 ++ (momRuleCCI latest).2 ++
        (momRuleWR latest).2) ++
      ((volRuleSMA latest).2 ++ (volRuleOBV latest).2 ++ (volRuleMFI latest).2) ++
      ((volaRuleBB latest).2 ++ (volaRuleBBW latest).2 ++ (volaRuleATR latest).2 ++
        (volaRuleSup latest).2 ++ (volaRuleRes latest).2) := by
  simp [performAnalysis, trendEval, momEval, volEval, volaEval, List.append_assoc]

theorem trendEval_bounds (prev latest : Row) :
    -8 ≤ (trendEval prev latest).1 ∧ (trendEval prev latest).1 ≤ 8 := by
  have h1 : -3 ≤ (trendRuleEMA latest).1 ∧ (trendRuleEMA latest).1 ≤ 3 := by
    unfold trendRuleEMA; split_ifs <;> simp
  have h2 : -2 ≤ (trendRuleADX latest).1 ∧ (trendRuleADX latest).1 ≤ 2 := by
    unfold trendRuleADX; split_ifs <;> simp
  have h3 : -1 ≤ (trendRuleST latest).1 ∧ (trendRuleST latest).1 ≤ 1 := by
    unfold trendRuleST; split_ifs <;> simp
  have h4 : -2 ≤ (trendRuleMACD prev latest).1 ∧ (trendRuleMACD prev latest).1 ≤ 2 := by
    unfold trendRuleMACD; split_ifs <;> simp
  have he : (trendEval prev latest).1 =
      (trendRuleEMA latest).1 + (trendRuleADX latest).1 + (trendRuleST latest).1 +
        (trendRuleMACD prev latest).1 := rfl
  rw [he]; omega

theorem momEval_bounds (latest : Row) :
    -6 ≤ (momEval latest).1 ∧ (momEval latest).1 ≤ 6 := by
  have h1 : -2 ≤ (momRuleRSI latest).1 ∧ (momRuleRSI latest).1 ≤ 2 := by
    unfold momRuleRSI; split_ifs <;> simp
  have h2 : -2 ≤ (momRuleStoch latest).1 ∧ (momRuleStoch latest).1 ≤ 2 := by
    unfold momRuleStoch; split_ifs <;> simp
  have h3 : -1 ≤ (momRuleCCI latest).1 ∧ (momRuleCCI latest).1 ≤ 1 := by
    unfold momRuleCCI; split_ifs <;> simp
  have h4 : -1 ≤ (momRuleWR latest).1 ∧ (momRuleWR latest).1 ≤ 1 := by
    unfold momRuleWR; split_ifs <;> simp
  have he : (momEval latest).1 =
      (momRuleRSI latest).1 + (momRuleStoch latest).1 + (momRuleCCI latest).1 +
        (momRuleWR latest).1 := rfl
  rw [he]; omega

theorem volEval_bounds (latest : Row) :
    -3 ≤ (volEval latest).1 ∧ (volEval latest).1 ≤ 4 := by
  have h1 : -1 ≤ (volRuleSMA latest).1 ∧ (volRuleSMA latest).1 ≤ 2 := by
    unfold volRuleSMA; split_ifs <;> simp
  have h2 : -1 ≤ (volRuleOBV latest).1 ∧ (volRuleOBV latest).1 ≤ 1 := by
    unfold volRuleOBV; split_ifs <;> simp
  have h3 : -1 ≤ (volRuleMFI latest).1 ∧ (volRuleMFI latest).1 ≤ 1 := by
    unfold volRuleMFI; split_ifs <;> simp
  have he : (volEval latest).1 =
      (volRuleSMA latest).1 + (volRuleOBV latest).1 + (volRuleMFI latest).1 := rfl
  rw [he]; omega

theorem volaEval_bounds (latest : Row) :
    -3 ≤ (volaEval latest).1 ∧ (volaEval latest).1 ≤ 3 := by
  have h1 : -2 ≤ (volaRuleBB latest).1 ∧ (volaRuleBB latest).1 ≤ 2 := by
    unfold volaRuleBB; split_ifs <;> simp
  have h2 : (volaRuleBBW latest).1 = 0 := by
    unfold volaRuleBBW; split_ifs <;> simp
  have h3 : (volaRuleATR latest).1 = 0 := by
    cases h : fgt (pmul (pdiv latest.ATR latest.Close) (.fin 100)) (.fin 3) <;>
      simp [volaRuleATR, h]
  have h4 : 0 ≤ (volaRuleSup latest).1 ∧ (volaRuleSup latest).1 ≤ 1 := by
    unfold volaRuleSup; split_ifs <;> simp
  have h5 : -1 ≤ (volaRuleRes latest).1 ∧ (volaRuleRes latest).1 ≤ 0 := by
    unfold volaRuleRes; split_ifs <;> simp
  have he : (volaEval latest).1 =
      (volaRuleBB latest).1 + (volaRuleBBW latest).1 + (volaRuleATR latest).1 +
        (volaRuleSup latest).1 + (volaRuleRes latest).1 := rfl
  rw [he]; omega

/-- Claim C9: the category sub-scores are bounded (trend in [-8,8],
momentum in [-6,6], volume in [-3,4], volatility in [-3,3]), so the
composite always lies in [-20,21]; and each signal tier is attained at
some composite value inside that range. -/
theorem C9_score_bounds (prev latest : Row) :
    (-8 ≤ (performAnalysis prev latest).trend_score ∧
       (performAnalysis prev latest).trend_score ≤ 8) ∧
    (-6 ≤ (performAnalysis prev latest).momentum_score ∧
       (performAnalysis prev latest).momentum_score ≤ 6) ∧
    (-3 ≤ (performAnalysis prev latest).volume_score ∧
       (performAnalysis prev latest).volume_score ≤ 4) ∧
    (-3 ≤ (performAnalysis prev latest).volatility_score ∧
       (performAnalysis prev latest).volatility_score ≤ 3) ∧
    (-20 ≤ (performAnalysis prev latest).total_score ∧
       (performAnalysis prev latest).total_score ≤ 21) ∧
    ((∃ n, -20 ≤ n ∧ n ≤ 21 ∧ signalOf n = "STRONG BUY") ∧
     (∃ n, -20 ≤ n ∧ n ≤ 21 ∧ signalOf n = "BUY") ∧
     (∃ n, -20 ≤ n ∧ n ≤ 21 ∧ signalOf n = "HOLD") ∧
     (∃ n, -20 ≤ n ∧ n ≤ 21 ∧ signalOf n = "SELL") ∧
     (∃ n, -20 ≤ n ∧ n ≤ 21 ∧ signalOf n = "STRONG SELL")) := by
  have ht := trendEval_bounds prev latest
  have hm := momEval_bounds latest
  have hv := volEval_bounds latest
  have hw := volaEval_bounds latest
  have hts : (performAnalysis prev latest).trend_score = (trendEval prev latest).1 := rfl
  have hms : (performAnalysis prev latest).momentum_score = (momEval latest).1 := rfl
  have hvs : (performAnalysis prev latest).volume_score = (volEval latest).1 := rfl
  have hws : (performAnalysis prev latest).volatility_score = (volaEval latest).1 := rfl
  have htot : (performAnalysis prev latest).total_score =
      (trendEval prev latest).1 + (momEval latest).1 + (volEval latest).1 +
        (volaEval latest).1 := rfl
  refine ⟨?_, ?_, ?_, ?_, ?_, ?_⟩
  · rw [hts]; omega
  · rw [hms]; omega
  · rw [hvs]; omega
  · rw [hws]; omega
  · rw [htot]; omega
  · exact ⟨⟨10, by decide⟩, ⟨5, by decide⟩, ⟨0, by decide⟩, ⟨-5, by decide⟩,
      ⟨-10, by decide⟩⟩

/-- Claim C7: with a perfect bullish EMA stack, ADX above 25 with +DI
above -DI, a bullish SuperTrend state and a fresh bullish MACD
crossover, the trend sub-score is exactly 3 + 2 + 1 + 2 = 8. -/
theorem C7_trend_eight (prev latest : Row)
    (h1 : fgt latest.Close latest.EMA_9 = true)
    (h2 : fgt latest.EMA_9 latest.EMA_20 = true)
    (h3 : fgt latest.EMA_20 latest.EMA_50 = true)
    (h4 : fgt latest.ADX (.fin 25) = true)
    (h5 : fgt latest.ADX_POS latest.ADX_NEG = true)
    (h6 : latest.SuperTrend = true)
    (h7 : flt prev.MACD prev.MACD_Signal = true)
    (h8 : fgt latest.MACD latest.MACD_Signal = true) :
    (performAnalysis prev latest).trend_score = 8 := by
  have : (performAnalysis prev latest).trend_score = (trendEval prev latest).1 := rfl
  rw [this]
  unfold trendEval trendRuleEMA trendRuleADX trendRuleST trendRuleMACD
  simp [h1, h2, h3, h4, h5, h6, h7, h8]

/-- Witness for C7 at the concrete bullish setup. -/
theorem C7_witness : (performAnalysis bullPrevRow bullRow).trend_score = 8 :=
  C7_trend_eight bullPrevRow bullRow (by decide) (by decide) (by decide) (by decide)
    (by decide) (by decide) (by decide) (by decide)

/-- Claim C5: the entry range, target, stop-loss and risk:reward are
populated exactly when the trading signal contains "BUY" (true for
"BUY" and "STRONG BUY", false for "HOLD", "SELL" and "STRONG SELL"),
with entry range [support, close], target close + 2*ATR, stop-loss
support - ATR and risk:reward (target - close)/(close - stopLoss);
non-buy signals report all of them as N/A (`none`); and the concrete
BUY example close 100 / support 95 / ATR 2 yields target 104, stop 93
and ratio 4/7, whose two-decimal rendering is 0.57. -/
theorem C5_levels :
    (∀ prev latest : Row,
      (containsBUY (performAnalysis prev latest).trading_signal = true →
        (performAnalysis prev latest).entry_point = some (latest.Support, latest.Close) ∧
        (performAnalysis prev latest).target_price =
          some (padd latest.Close (pmul (.fin 2) latest.ATR)) ∧
        (performAnalysis prev latest).stop_loss = some (psub latest.Support latest.ATR) ∧
        (performAnalysis prev latest).risk_reward =
          some (pdiv (psub (padd latest.Close (pmul (.fin 2) latest.ATR)) latest.Close)
            (psub latest.Close (psub latest.Support latest.ATR)))) ∧
      (containsBUY (performAnalysis prev latest).trading_signal = false →
        (performAnalysis prev latest).entry_point = none ∧
        (performAnalysis prev latest).target_price = none ∧
        (performAnalysis prev latest).stop_loss = none ∧
        (performAnalysis prev latest).risk_reward = none)) ∧
    (containsBUY "BUY" = true ∧ containsBUY "STRONG BUY" = true ∧
      containsBUY "HOLD" = false ∧ containsBUY "SELL" = false ∧
      containsBUY "STRONG SELL" = false) ∧
    ((performAnalysis buyRow buyRow).trading_signal = "BUY" ∧
      (performAnalysis buyRow buyRow).target_price = some (.fin 104) ∧
      (performAnalysis buyRow buyRow).stop_loss = some (.fin 93) ∧
      (performAnalysis buyRow buyRow).risk_reward = some (.fin (4 / 7)) ∧
      round ((4 / 7 : ℚ) * 100) = (57 : ℤ)) := by
  have hbuy : containsBUY "BUY" = true := by decide
  refine ⟨?_, ⟨hbuy, by decide, by decide, by decide, by decide⟩, ?_⟩
  · intro prev latest
    constructor
    · intro h
      have hh : containsBUY (signalOf ((trendEval prev latest).1 + (momEval latest).1 +
          (volEval latest).1 + (volaEval latest).1)) = true := h
      refine ⟨?_, ?_, ?_, ?_⟩ <;> simp [performAnalysis, hh]
    · intro h
      have hh : containsBUY (signalOf ((trendEval prev latest).1 + (momEval latest).1 +
          (volEval latest).1 + (volaEval latest).1)) = false := h
      refine ⟨?_, ?_, ?_, ?_⟩ <;> simp [performAnalysis, hh]
  · have hsc : (trendEval buyRow buyRow).1 + (momEval buyRow).1 + (volEval buyRow).1 +
        (volaEval buyRow).1 = 8 := by
      norm_num [trendEval, momEval, volEval, volaEval, trendRuleEMA, trendRuleADX,
        trendRuleST, trendRuleMACD, momRuleRSI, momRuleStoch, momRuleCCI, momRuleWR,
        volRuleSMA, volRuleOBV, volRuleMFI, volaRuleBB, volaRuleBBW, volaRuleATR,
        volaRuleSup, volaRuleRes, buyRow, flt, fgt, fle, padd, psub, pmul, pneg, pdiv]
    have hsig : (performAnalysis buyRow buyRow).trading_signal = "BUY" := by
      have : (performAnalysis buyRow buyRow).trading_signal =
          signalOf ((trendEval buyRow buyRow).1 + (momEval buyRow).1 + (volEval buyRow).1 +
            (volaEval buyRow).1) := rfl
      rw [this, hsc]; rfl
    have h8 : signalOf 8 = "BUY" := by decide
    refine ⟨hsig, ?_, ?_, ?_, by norm_num [round_eq]⟩ <;>
      · simp only [performAnalysis, hsc, h8, hbuy, if_true]
        norm_num [buyRow, padd, psub, pmul, pneg, pdiv]

/-- Witness for C5 applying the populated direction at the concrete
BUY row. -/
theorem C5_witness :
    (performAnalysis buyRow buyRow).entry_point = some (buyRow.Support, buyRow.Close) ∧
    (performAnalysis buyRow buyRow).stop_loss = some (psub buyRow.Support buyRow.ATR) := by
  have hsc : (trendEval buyRow buyRow).1 + (momEval buyRow).1 + (volEval buyRow).1 +
      (volaEval buyRow).1 = 8 := by
    norm_num [trendEval, momEval, volEval, volaEval, trendRuleEMA, trendRuleADX,
      trendRuleST, trendRuleMACD, momRuleRSI, momRuleStoch, momRuleCCI, momRuleWR,
      volRuleSMA, volRuleOBV, volRuleMFI, volaRuleBB, volaRuleBBW, volaRuleATR,
      volaRuleSup, volaRuleRes, buyRow, flt, fgt, fle, padd, psub, pmul, pneg, pdiv]
  have hb : containsBUY (performAnalysis buyRow buyRow).trading_signal = true := by
    show containsBUY (signalOf _) = true
    rw [hsc]
    decide
  obtain ⟨h1, _, h3, _⟩ := (C5_levels.1 buyRow buyRow).1 hb
  exact ⟨h1, h3⟩

/-- Claim C8: wherever the 14-bar window is entirely preceded by a bar
(index at least 14), the ATR column the analysis consumes equals the
canonical construction: the arithmetic rolling mean over the window of
TR = max(high - low, |high - prevClose|, |low - prevClose|). -/
theorem C8_atr_formula (df : List Bar) (i : ℕ) (h : 14 ≤ i) :
    (rowAt df i).ATR =
      .fin ((((List.range 14).map fun k =>
        max (hiv df (i - k) - lov df (i - k))
          (max |hiv df (i - k) - clv df (i - k - 1)| |lov df (i - k) - clv df (i - k - 1)|)).sum)
        / 14) := by
  have hA : (rowAt df i).ATR = atrRolling df 14 i := rfl
  rw [hA]
  unfold atrRolling rmeanInd
  rw [if_neg (by omega)]
  have hmap : (List.range 14).map (fun k => trVal df (i - k)) =
      (List.range 14).map fun k =>
        max (hiv df (i - k) - lov df (i - k))
          (max |hiv df (i - k) - clv df (i - k - 1)| |lov df (i - k) - clv df (i - k - 1)|) := by
    apply List.map_congr_left
    intro k hk
    have hk14 : k < 14 := List.mem_range.mp hk
    obtain ⟨m, hm⟩ : ∃ m, i - k = m + 1 := ⟨i - k - 1, by omega⟩
    rw [hm]
    simp [trVal]
  unfold rsum
  rw [hmap]
  norm_num

/-- Witness for C8 at a concrete 15-bar series and index 14. -/
theorem C8_witness :
    (rowAt atrDf 14).ATR =
      .fin ((((List.range 14).map fun k =>
        max (hiv atrDf (14 - k) - lov atrDf (14 - k))
          (max |hiv atrDf (14 - k) - clv atrDf (14 - k - 1)|
            |lov atrDf (14 - k) - clv atrDf (14 - k - 1)|)).sum) / 14) :=
  C8_atr_formula atrDf 14 (by omega)

/-- Counterexample to claim C6: at `degRow` the signal is BUY and the
risk:reward denominator close - stopLoss is zero, yet the engine does
not fall back to a defined value or suppress the signal - it emits NaN
(rendered "1:nan") in the risk:reward field. -/
theorem C6_counterexample :
    psub degRow.Close (psub degRow.Support degRow.ATR) = .fin 0 ∧
    containsBUY (performAnalysis degRow degRow).trading_signal = true ∧
    (performAnalysis degRow degRow).risk_reward = some PFloat.nan := by
  have hsc : (trendEval degRow degRow).1 + (momEval degRow).1 + (volEval degRow).1 +
      (volaEval degRow).1 = 9 := by
    norm_num [trendEval, momEval, volEval, volaEval, trendRuleEMA, trendRuleADX,
      trendRuleST, trendRuleMACD, momRuleRSI, momRuleStoch, momRuleCCI, momRuleWR,
      volRuleSMA, volRuleOBV, volRuleMFI, volaRuleBB, volaRuleBBW, volaRuleATR,
      volaRuleSup, volaRuleRes, degRow, buyRow, flt, fgt, fle, padd, psub, pmul, pneg, pdiv]
  have h9 : signalOf 9 = "BUY" := by decide
  have hbuy : containsBUY "BUY" = true := by decide
  refine ⟨by norm_num [degRow, buyRow, psub, padd, pneg], ?_, ?_⟩
  · show containsBUY (signalOf _) = true
    rw [hsc, h9]; exact hbuy
  · simp only [performAnalysis, hsc, h9, hbuy, if_true]
    norm_num [degRow, buyRow, padd, psub, pmul, pneg, pdiv]

/-- Claim C6, amended: the DX fallback is as claimed - a zero +DI + -DI
denominator makes DX exactly 0 (no fault).  The risk:reward division by
zero, however, does not fall back: no exception is raised (numpy float
semantics), but the emitted ratio is NaN or a signed infinity rather
than a defined value. -/
theorem C6_division_fallbacks :
    (∀ (df : List Bar) (n i : ℕ),
      padd (plusDI df n i) (minusDI df n i) = .fin 0 → dxVal df n i = 0) ∧
    (∀ prev latest : Row,
      psub latest.Close (psub latest.Support latest.ATR) = .fin 0 →
      containsBUY (performAnalysis prev latest).trading_signal = true →
      (performAnalysis prev latest).risk_reward = some PFloat.nan ∨
      (performAnalysis prev latest).risk_reward = some PFloat.pinf ∨
      (performAnalysis prev latest).risk_reward = some PFloat.ninf) := by
  constructor
  · intro df n i h
    unfold dxVal
    rw [h]
    generalize psub (plusDI df n i) (minusDI df n i) = s
    cases s with
    | fin q =>
        norm_num [pabs, pmul, pdiv, toZeroQ]
        rcases eq_or_ne q 0 with hq | hq <;> norm_num [hq]
    | pinf => norm_num [pabs, pmul, pdiv, toZeroQ]
    | ninf => norm_num [pabs, pmul, pdiv, toZeroQ]
    | nan => rfl
  · intro prev latest h hb
    obtain ⟨c, d, hc, hd, hcd⟩ := padd_eq_fin h
    obtain ⟨s, e, hs, he, hse⟩ : ∃ s e, latest.Support = .fin s ∧ pneg latest.ATR = .fin e ∧
        s + e = -d := by
      have hd2 : psub latest.Support latest.ATR = .fin (-d) := by
        cases hx : psub latest.Support latest.ATR <;> rw [hx] at hd <;>
          simp_all [pneg, neg_eq_iff_eq_neg]
      exact padd_eq_fin hd2
    obtain ⟨a, ha, hae⟩ : ∃ a, latest.ATR = .fin a ∧ -a = e := by
      cases hx : latest.ATR <;> rw [hx] at he <;> simp_all [pneg]
    have hh : containsBUY (signalOf ((trendEval prev latest).1 + (momEval latest).1 +
        (volEval latest).1 + (volaEval latest).1)) = true := hb
    have hrr : (performAnalysis prev latest).risk_reward =
        some (pdiv (psub (padd latest.Close (pmul (.fin 2) latest.ATR)) latest.Close)
          (psub latest.Close (psub latest.Support latest.ATR))) := by
      simp only [performAnalysis, hh, if_true]
    rw [hrr, h, hc, ha]
    have hnum : psub (padd (PFloat.fin c) (pmul (PFloat.fin 2) (PFloat.fin a)))
        (PFloat.fin c) = .fin (2 * a) := by
      norm_num [psub, padd, pneg, pmul]
    rw [hnum]
    rcases lt_trichotomy (2 * a) 0 with hq | hq | hq
    · right; right
      simp [pdiv, hq, asymm hq]
    · left
      simp [pdiv, hq]
    · right; left
      simp [pdiv, hq]

/-- Witness for the amended C6: the DX branch at a series of constant
bars with positive range (+DI = -DI = 0, ATR = 10) gives DX = 0, and
the risk:reward branch at `degRow` emits a non-finite ratio. -/
theorem C6_witness :
    dxVal flatDmDf 14 13 = 0 ∧
    ((performAnalysis degRow degRow).risk_reward = some PFloat.nan ∨
     (performAnalysis degRow degRow).risk_reward = some PFloat.pinf ∨
     (performAnalysis degRow degRow).risk_reward = some PFloat.ninf) := by
  constructor
  · refine C6_division_fallbacks.1 flatDmDf 14 13 ?_
    norm_num [plusDI, minusDI, plusDMv, minusDMv, atrRolling, rmeanInd, rsum, trVal,
      hiv, lov, clv, bAt, flatDmDf, List.replicate, List.range_succ, pdiv, padd]
  · refine C6_division_fallbacks.2 degRow degRow ?_ ?_
    · norm_num [degRow, buyRow, psub, padd, pneg]
    · have hsc : (trendEval degRow degRow).1 + (momEval degRow).1 + (volEval degRow).1 +
          (volaEval degRow).1 = 9 := by
        norm_num [trendEval, momEval, volEval, volaEval, trendRuleEMA, trendRuleADX,
          trendRuleST, trendRuleMACD, momRuleRSI, momRuleStoch, momRuleCCI, momRuleWR,
          volRuleSMA, volRuleOBV, volRuleMFI, volaRuleBB, volaRuleBBW, volaRuleATR,
          volaRuleSup, volaRuleRes, degRow, buyRow, flt, fgt, fle, padd, psub, pmul, pneg, pdiv]
      show containsBUY (signalOf _) = true
      rw [hsc]
      decide

/-- Counterexample to claim C4: the OBV rule compares NaN operands
(both OBV and OBV_EMA are NaN in `nanRow`), yet its unconditional else
branch fires and contributes -1, not 0, to the volume score. -/
theorem C4_counterexample :
    nanRow.OBV = PFloat.nan ∧ nanRow.OBV_EMA = PFloat.nan ∧
    (volRuleOBV nanRow).1 = -1 ∧
    (performAnalysis nanRow nanRow).volume_score = -1 ∧ ((-1 : Int) ≠ 0) :=
  ⟨rfl, rfl, rfl, rfl, by decide⟩

/-- Claim C4, amended: a NaN operand resolves every comparison to
false, so the analysis does not crash and each rule whose NaN operand
gates all its scoring branches contributes exactly 0 (for the ADX rule
this is the case when ADX itself is NaN, for the Bollinger rule when
both bands are NaN) - except the OBV rule, whose unconditional else
branch fires on a NaN operand and contributes -1. -/
theorem C4_nan_rules (prev latest : Row) :
    ((latest.EMA_9 = .nan ∨ latest.EMA_20 = .nan ∨ latest.EMA_50 = .nan ∨
        latest.Close = .nan) → (trendRuleEMA latest).1 = 0) ∧
    (latest.ADX = .nan → (trendRuleADX latest).1 = 0) ∧
    ((prev.MACD = .nan ∨ prev.MACD_Signal = .nan ∨ latest.MACD = .nan ∨
        latest.MACD_Signal = .nan) → (trendRuleMACD prev latest).1 = 0) ∧
    (latest.RSI = .nan → (momRuleRSI latest).1 = 0) ∧
    ((latest.STOCH_K = .nan ∨ latest.STOCH_D = .nan) → (momRuleStoch latest).1 = 0) ∧
    (latest.CCI = .nan → (momRuleCCI latest).1 = 0) ∧
    (latest.WILLIAMS_R = .nan → (momRuleWR latest).1 = 0) ∧
    ((latest.Volume = .nan ∨ latest.Volume_SMA = .nan) → (volRuleSMA latest).1 = 0) ∧
    (latest.MFI = .nan → (volRuleMFI latest).1 = 0) ∧
    ((latest.BB_Low = .nan ∧ latest.BB_High = .nan) → (volaRuleBB latest).1 = 0) ∧
    (latest.ATR = .nan → (volaRuleATR latest).1 = 0) ∧
    (latest.Support = .nan → (volaRuleSup latest).1 = 0) ∧
    (latest.Resistance = .nan → (volaRuleRes latest).1 = 0) ∧
    ((latest.OBV = .nan ∨ latest.OBV_EMA = .nan) → (volRuleOBV latest).1 = -1) := by
  refine ⟨?_, ?_, ?_, ?_, ?_, ?_, ?_, ?_, ?_, ?_, ?_, ?_, ?_, ?_⟩
  · intro h
    rcases h with h | h | h | h <;>
      simp [trendRuleEMA, h, fgt_nan_left, fgt_nan_right, flt_nan_left, flt_nan_right]
  · intro h
    simp [trendRuleADX, h, fgt_nan_left]
  · intro h
    rcases h with h | h | h | h <;>
      simp [trendRuleMACD, h, fgt_nan_left, fgt_nan_right, flt_nan_left, flt_nan_right]
  · intro h
    simp [momRuleRSI, h, flt_nan_left, fgt_nan_left, fle_nan_left, fle_nan_right]
  · intro h
    rcases h with h | h <;>
      simp [momRuleStoch, h, flt_nan_left, fgt_nan_left, flt_nan_right, fgt_nan_right]
  · intro h
    simp [momRuleCCI, h, flt_nan_left, fgt_nan_left]
  · intro h
    simp [momRuleWR, h, flt_nan_left, fgt_nan_left]
  · intro h
    rcases h with h | h
    · simp [volRuleSMA, h, fgt_nan_left, flt_nan_left]
    · simp [volRuleSMA, h, pmul_nan_left, fgt_nan_right, flt_nan_right]
  · intro h
    simp [volRuleMFI, h, flt_nan_left, fgt_nan_left]
  · intro h
    simp [volaRuleBB, h.1, h.2, flt_nan_right, fgt_nan_right]
  · intro h
    simp [volaRuleATR, h, pdiv_nan_left, pmul_nan_left, fgt_nan_left]
  · intro h
    simp [volaRuleSup, h, psub_nan_right, pdiv_nan_left, pmul_nan_left, flt_nan_left]
  · intro h
    simp [volaRuleRes, h, psub_nan_left, pdiv_nan_left, pmul_nan_left, flt_nan_left]
  · intro h
    rcases h with h | h <;> simp [volRuleOBV, h, fgt_nan_left, fgt_nan_right]

/-- Witness for the amended C4 at the all-NaN warm-up row. -/
theorem C4_witness :
    (trendRuleEMA nanRow).1 = 0 ∧ (momRuleRSI nanRow).1 = 0 ∧
    (volRuleOBV nanRow).1 = -1 := by
  obtain ⟨h1, h2, h3, h4, h5, h6, h7, h8, h9, h10, h11, h12, h13, h14⟩ :=
    C4_nan_rules nanRow nanRow
  exact ⟨h1 (Or.inl rfl), h4 rfl, h14 (Or.inl rfl)⟩

/-- Counterexample to claim C3: in `stDf` the SuperTrend state is
Bullish at bars 9 and 10 (one maximal Bullish run), bar 10 re-asserts
Bullish by a close-versus-upper-band breakout, and the output lower
band drops from 100 to 102/5 - the lower band is not non-decreasing
across a breakout bar inside a Bullish run. -/
theorem C3_counterexample :
    (stState stDf 9).1 = true ∧ (stState stDf 10).1 = true ∧
    fgt (.fin (clv stDf 10)) (stState stDf 9).2.1 = true ∧
    (stState stDf 9).2.2 = .fin 100 ∧ (stState stDf 10).2.2 = .fin (102 / 5) ∧
    ((102 : ℚ) / 5 < 100) := by
  have h : (stState stDf 9) = (true, .fin 100, .fin 100) ∧
      (stState stDf 10) = (true, .fin (408 / 5), .fin (102 / 5)) := by
    norm_num [stState, stRawU, stRawL, atrRolling, rmeanInd, rsum, trVal, hiv, lov, clv,
      bAt, hl2v, cbar, stDf, List.replicate, List.range_succ, flt, fgt, padd, psub, pmul, pneg]
  refine ⟨by rw [h.1], by rw [h.2], ?_, by rw [h.1], by rw [h.2], by norm_num⟩
  rw [h.1]
  norm_num [fgt, flt, clv, bAt, stDf, List.replicate, cbar]

/-- Claim C3, amended: the band ratchet holds at every bar where the
state persists through the else branch (close not beyond either
previous band): there the output lower band never decreases while
Bullish and the output upper band never increases while Bearish.  At a
breakout bar the bands are reset to their raw values, so the ratchet
does not extend across breakout re-assertions (see the
counterexample). -/
theorem C3_persist_ratchet (df : List Bar) (i : ℕ)
    (hU : fgt (.fin (clv df (i + 1))) (stState df i).2.1 = false)
    (hL : flt (.fin (clv df (i + 1))) (stState df i).2.2 = false) :
    ((stState df i).1 = true →
      flt (stState df (i + 1)).2.2 (stState df i).2.2 = false) ∧
    ((stState df i).1 = false →
      fgt (stState df (i + 1)).2.1 (stState df i).2.1 = false) := by
  constructor
  · intro hs
    simp only [stState, hU, hL, Bool.false_eq_true, if_false, hs]
    cases hc : flt (stRawL df (i + 1)) (stState df i).2.2 <;>
      simp [hc, flt_irrefl]
  · intro hs
    simp only [stState, hU, hL, Bool.false_eq_true, if_false, hs]
    cases hc : fgt (stRawU df (i + 1)) (stState df i).2.1
    · simp only [Bool.not_false, Bool.true_and, hc, if_false, Bool.false_eq_true]
    · simp [fgt, hc, flt_irrefl]

/-- Witness for the amended C3 at `stDf`, step 8 to 9 (a persisting
Bullish bar). -/
theorem C3_witness : flt (stState stDf 9).2.2 (stState stDf 8).2.2 = false := by
  have h8 : stState stDf 8 = (true, PFloat.nan, PFloat.nan) := by
    norm_num [stState, stRawU, stRawL, atrRolling, rmeanInd, rsum, trVal, hiv, lov, clv,
      bAt, hl2v, cbar, stDf, List.replicate, List.range_succ, flt, fgt, padd, psub, pmul, pneg]
  refine (C3_persist_ratchet stDf 8 ?_ ?_).1 (by rw [h8])
  · rw [h8]; exact fgt_nan_right _
  · rw [h8]; exact flt_nan_right _

end Adul
